import Mathlib

/-
  Shallow embedding of the FantaVacanze backend's challenge-completion
  lifecycle and point-settlement routes.

  Sources embedded:
  - src/backend/challenge_completion_routes.js
      POST /                      (recordCompletion)
      POST /:completionId/approve (approveCompletion)
      DELETE /:completionId       (deleteCompletion)
  - src/unnamed/part_008
      POST /api/groups/:groupId/challenges (replaceGroupChallenges)
      GET  /api/groups/:groupId/challenges (getGroupChallenges)

  The relational store is modelled as explicit lists of rows; each route
  handler is a pure function from a database state (plus the request) to a
  response together with the successor state.  Database statements that can
  fail at runtime (inside the handlers' transactions) are modelled by a
  record of error-injection flags, one per statement, so that the
  rollback-on-error paths of the source are part of the embedding.
-/

namespace FantaVacanze

/-- A value of a JSON request-body field as the Express handlers see it:
absent (`undefined`/`null`), a number, or a string.  JavaScript truthiness
(`!x`) and strict equality (`===`) are modelled on this type. -/
inductive ReqField where
  | missing : ReqField
  | num : Int → ReqField
  | str : String → ReqField
deriving DecidableEq

/-- JavaScript truthiness of a request field: `undefined`, `null`, `0` and
the empty string are falsy. -/
def ReqField.truthy : ReqField → Bool
  | .missing => false
  | .num n => n != 0
  | .str s => s != ""

/-- SQL comparison of a request-supplied value against an integer column
(`WHERE col = ?`): numbers compare directly, strings are coerced. -/
def ReqField.sqlEq : ReqField → Int → Bool
  | .missing, _ => false
  | .num n, i => n == i
  | .str s, i => s.toInt? == some i

/-- The integer stored when a request field is written into an INT column. -/
def ReqField.storeVal : ReqField → Int
  | .missing => 0
  | .num n => n
  | .str s => (s.toInt?).getD 0

/-- `x || null`: an empty string collapses to NULL. -/
def orNull (o : Option String) : Option String :=
  match o with
  | some s => if s == "" then none else some s
  | none => none

/-- Row of the `challenges` table (the catalog).  `status` is the sign
attribute (`positive`/`negative`), `is_active` the active flag,
`ripetibile` the repeatability flag (`y`/`n`); `points` is stored as a
positive magnitude. -/
structure Challenge where
  id : Int
  category_id : Int
  points : Int
  status : String
  is_active : Bool
  ripetibile : String
deriving DecidableEq

/-- Row of the `challenge_categories` table. -/
structure Category where
  id : Int
  name : String
deriving DecidableEq

/-- Row of the `users` table (the fields this core touches). -/
structure User where
  id : Int
  total_points : Int
deriving DecidableEq

/-- Row of the `group_users` table: membership with per-group balance. -/
structure GroupUser where
  group_id : Int
  user_id : Int
  points : Int
  role : String
deriving DecidableEq

/-- Row of the `group_challenges` association table. -/
structure GroupChallenge where
  group_id : Int
  challenge_id : Int
  is_active : Bool
deriving DecidableEq

/-- Row of the `challenge_completions` table.  `points` is the captured
copy of the challenge's points at submission time; `approved` is the 0/1
approval flag; `approved_by` records the approver once approved. -/
structure Completion where
  id : Int
  group_id : Int
  user_id : Int
  challenge_id : Int
  evidence_url : Option String
  points : Int
  notes : Option String
  approved : Nat
  approved_by : Option Int
deriving DecidableEq

/-- The relational store.  `nextCompletionId` models the AUTO_INCREMENT
counter of `challenge_completions`. -/
structure DB where
  challenges : List Challenge
  challenge_categories : List Category
  users : List User
  group_users : List GroupUser
  group_challenges : List GroupChallenge
  challenge_completions : List Completion
  nextCompletionId : Int
deriving DecidableEq

/-- Identifier of the response body produced by a handler, mirroring the
distinct success/error messages of the source. -/
inductive Msg where
  | errRequiredIds
  | errFetchChallenge
  | errChallengeNotFound
  | errCheckExisting
  | errNotRepeatable
  | errBeginTx
  | errRecording
  | okRecorded : Int → Msg
  | errApproverRequired
  | errFetchCompletion
  | errCompletionNotFound
  | errAlreadyApproved
  | errSelfApproval
  | errStartTx
  | errApproving
  | errUpdatingUserPoints
  | errUpdatingGroupUserPoints
  | errCommit
  | okApproved
  | errFetchCompletionDetails
  | errDeleting
  | okDeleted
  | errMustSelectChallenge
  | errUpdatingGroupChallenges
  | errSavingGroupChallenges
  | okChallengesSaved
deriving DecidableEq

/-- HTTP response: status code plus body identifier. -/
structure Resp where
  status : Nat
  msg : Msg
deriving DecidableEq

/-- Error-injection flags for the statements of POST / (submit). -/
structure SubmitFail where
  beginTx : Bool
  insertRow : Bool
deriving DecidableEq

/-- No injected failures for submit. -/
def noSubmitFail : SubmitFail := ⟨false, false⟩

/-- Error-injection flags for the statements of the approve transaction. -/
structure ApproveFail where
  beginTx : Bool
  updCompletion : Bool
  updUserPoints : Bool
  updGroupPoints : Bool
  commit : Bool
deriving DecidableEq

/-- No injected failures for approve. -/
def noApproveFail : ApproveFail := ⟨false, false, false, false, false⟩

/-- Error-injection flags for the statements of the delete transaction. -/
structure DeleteFail where
  beginTx : Bool
  deleteRow : Bool
  updUserPoints : Bool
  commit : Bool
deriving DecidableEq

/-- No injected failures for delete. -/
def noDeleteFail : DeleteFail := ⟨false, false, false, false⟩

/-- POST /api/challenge-completions — record a new completion.
Validates the three ids for truthiness, looks the challenge up to capture
`points` and `ripetibile`, rejects a duplicate of a non-repeatable
challenge, then inserts the row with `approved = 0` inside a transaction
(rolled back on insert failure).  No balance changes. -/
def recordCompletion (f : SubmitFail) (db : DB)
    (group_id user_id challenge_id : ReqField)
    (evidence_url notes : Option String) : Resp × DB :=
  if !(group_id.truthy && user_id.truthy && challenge_id.truthy) then
    (⟨400, .errRequiredIds⟩, db)
  else
    match db.challenges.find? (fun c => challenge_id.sqlEq c.id) with
    | none => (⟨404, .errChallengeNotFound⟩, db)
    | some challenge =>
      let points := challenge.points
      let isRepeatable := challenge.ripetibile == "y"
      let completions := db.challenge_completions.filter (fun cc =>
        group_id.sqlEq cc.group_id && user_id.sqlEq cc.user_id &&
        challenge_id.sqlEq cc.challenge_id)
      if !isRepeatable && !completions.isEmpty then
        (⟨409, .errNotRepeatable⟩, db)
      else if f.beginTx then
        (⟨500, .errBeginTx⟩, db)
      else if f.insertRow then
        (⟨500, .errRecording⟩, db)
      else
        let newRow : Completion :=
          { id := db.nextCompletionId
            group_id := group_id.storeVal
            user_id := user_id.storeVal
            challenge_id := challenge_id.storeVal
            evidence_url := orNull evidence_url
            points := points
            notes := orNull notes
            approved := 0
            approved_by := none }
        (⟨201, .okRecorded db.nextCompletionId⟩,
         { db with
             challenge_completions := db.challenge_completions ++ [newRow]
             nextCompletionId := db.nextCompletionId + 1 })

/-- The three settlement effects of a successful approval: mark the
completion approved (recording the approver), add the captured points to
the submitter's global total, and add the same value to the submitter's
per-group balance. -/
def applyApprove (db : DB) (c : Completion) (approverId : Int) : DB :=
  { db with
      challenge_completions := db.challenge_completions.map (fun cc =>
        if cc.id == c.id then
          { cc with approved := 1, approved_by := some approverId }
        else cc)
      users := db.users.map (fun u =>
        if u.id == c.user_id then
          { u with total_points := u.total_points + c.points }
        else u)
      group_users := db.group_users.map (fun gu =>
        if gu.user_id == c.user_id && gu.group_id == c.group_id then
          { gu with points := gu.points + c.points }
        else gu) }

/-- POST /api/challenge-completions/:completionId/approve.
Requires a truthy `approver_id`; 404 when the completion is missing; 409
when `approved` is already 1; 400 when the approver strictly equals the
submitter; otherwise runs the three settlement updates in one transaction,
rolling back (state unchanged) on any injected statement failure. -/
def approveCompletion (f : ApproveFail) (db : DB)
    (completionId : Int) (approver_id : ReqField) : Resp × DB :=
  if !approver_id.truthy then
    (⟨400, .errApproverRequired⟩, db)
  else
    match db.challenge_completions.find? (fun cc => cc.id == completionId) with
    | none => (⟨404, .errCompletionNotFound⟩, db)
    | some completion =>
      if completion.approved == 1 then
        (⟨409, .errAlreadyApproved⟩, db)
      else if approver_id = ReqField.num completion.user_id then
        (⟨400, .errSelfApproval⟩, db)
      else if f.beginTx then
        (⟨500, .errStartTx⟩, db)
      else if f.updCompletion then
        (⟨500, .errApproving⟩, db)
      else if f.updUserPoints then
        (⟨500, .errUpdatingUserPoints⟩, db)
      else if f.updGroupPoints then
        (⟨500, .errUpdatingGroupUserPoints⟩, db)
      else if f.commit then
        (⟨500, .errCommit⟩, db)
      else
        (⟨200, .okApproved⟩, applyApprove db completion approver_id.storeVal)

/-- DELETE /api/challenge-completions/:completionId.
The lookup joins `challenges` (`SELECT cc.*, c.points ... JOIN`): a
completion whose challenge row is gone yields no row (404), and the
duplicated `points` column resolves to the challenge's CURRENT points,
which is what the handler then subtracts from the user's global total —
unconditionally, with no check of the approval state. -/
def deleteCompletion (f : DeleteFail) (db : DB) (completionId : Int) :
    Resp × DB :=
  match db.challenge_completions.find? (fun cc => cc.id == completionId) with
  | none => (⟨404, .errCompletionNotFound⟩, db)
  | some completion =>
    match db.challenges.find? (fun c => c.id == completion.challenge_id) with
    | none => (⟨404, .errCompletionNotFound⟩, db)
    | some challenge =>
      let points := challenge.points
      let userId := completion.user_id
      if f.beginTx then
        (⟨500, .errBeginTx⟩, db)
      else if f.deleteRow then
        (⟨500, .errDeleting⟩, db)
      else if f.updUserPoints then
        (⟨500, .errUpdatingUserPoints⟩, db)
      else if f.commit then
        (⟨500, .errCommit⟩, db)
      else
        (⟨200, .okDeleted⟩,
         { db with
             challenge_completions :=
               db.challenge_completions.filter (fun cc => !(cc.id == completionId))
             users := db.users.map (fun u =>
               if u.id == userId then
                 { u with total_points := u.total_points - points }
               else u) })

/-- POST /api/groups/:groupId/challenges — replace the group's challenge
selection.  Rejects a missing/empty list with 400, then runs a DELETE of
the existing associations followed by a bulk INSERT — two separate
autocommitted statements, with no wrapping transaction: an insert failure
leaves the delete in place.  The `is_active` default of freshly inserted
association rows is not in the repository's sources; modelled from the
spec (the association is the group's selection and is immediately
selectable), it defaults to active. -/
def replaceGroupChallenges (fDel fIns : Bool) (db : DB) (groupId : Int)
    (challenge_ids : Option (List Int)) : Resp × DB :=
  match challenge_ids with
  | none => (⟨400, .errMustSelectChallenge⟩, db)
  | some ids =>
    if ids.isEmpty then
      (⟨400, .errMustSelectChallenge⟩, db)
    else if fDel then
      (⟨500, .errUpdatingGroupChallenges⟩, db)
    else
      let afterDelete :=
        { db with group_challenges :=
            db.group_challenges.filter (fun gc => !(gc.group_id == groupId)) }
      if fIns then
        (⟨500, .errSavingGroupChallenges⟩, afterDelete)
      else
        let newRows : List GroupChallenge :=
          ids.map (fun cid =>
            { group_id := groupId, challenge_id := cid, is_active := true })
        (⟨200, .okChallengesSaved⟩,
         { afterDelete with group_challenges :=
             afterDelete.group_challenges ++ newRows })

/-- GET /api/groups/:groupId/challenges — the ids of the challenges the
group has opted into: active association rows for the group, inner-joined
to `challenges` and `challenge_categories`. -/
def getGroupChallenges (db : DB) (groupId : Int) : List Int :=
  (db.group_challenges.filter
    (fun gc => gc.group_id == groupId && gc.is_active)).filterMap
    (fun gc =>
      match db.challenges.find? (fun c => c.id == gc.challenge_id) with
      | none => none
      | some c =>
        match db.challenge_categories.find? (fun cat => cat.id == c.category_id) with
        | none => none
        | some _ => some c.id)

/-- Global point total of a user, read off the first matching `users` row. -/
def userTotal (db : DB) (uid : Int) : Int :=
  match db.users.find? (fun u => u.id == uid) with
  | some u => u.total_points
  | none => 0

/-- Per-group balance of a user, read off the first matching `group_users`
row. -/
def groupPoints (db : DB) (g u : Int) : Int :=
  match db.group_users.find? (fun gu => gu.user_id == u && gu.group_id == g) with
  | some gu => gu.points
  | none => 0

/-- Number of completion rows matching a (group, user, challenge) triple,
with the comparison oriented exactly as the submit handler's duplicate
check issues it. -/
def countTriple (db : DB) (g u c : Int) : Nat :=
  (db.challenge_completions.filter (fun cc =>
    ((ReqField.num g).sqlEq cc.group_id && (ReqField.num u).sqlEq cc.user_id &&
     (ReqField.num c).sqlEq cc.challenge_id))).length

/-- The two inner joins of GET /api/groups/:groupId/challenges succeed for
a challenge id: the challenge row exists and its category row exists. -/
def challengeListed (db : DB) (cid : Int) : Bool :=
  match db.challenges.find? (fun c => c.id == cid) with
  | none => false
  | some c =>
    (db.challenge_categories.find? (fun cat => cat.id == c.category_id)).isSome

/-- Concrete witness state: a non-repeatable challenge 1 (10 points), user
7 with global total 100 and balance 50 in group 3, and a pending
completion (id 5) of challenge 1 by user 7 in group 3. -/
def dbW : DB :=
  { challenges := [{ id := 1, category_id := 1, points := 10,
                     status := "positive", is_active := true,
                     ripetibile := "n" }]
    challenge_categories := [{ id := 1, name := "Generale" }]
    users := [{ id := 7, total_points := 100 }]
    group_users := [{ group_id := 3, user_id := 7, points := 50,
                      role := "member" }]
    group_challenges := []
    challenge_completions := [{ id := 5, group_id := 3, user_id := 7,
                                challenge_id := 1, evidence_url := none,
                                points := 10, notes := none, approved := 0,
                                approved_by := none }]
    nextCompletionId := 6 }

/-- Concrete state for C2: a negative (penalty) challenge of magnitude 10,
a pending completion of it by user 7 (global total 100, group balance 50). -/
def dbC2 : DB :=
  { challenges := [{ id := 1, category_id := 1, points := 10,
                     status := "negative", is_active := true,
                     ripetibile := "y" }]
    challenge_categories := [{ id := 1, name := "Generale" }]
    users := [{ id := 7, total_points := 100 }]
    group_users := [{ group_id := 3, user_id := 7, points := 50,
                      role := "member" }]
    group_challenges := []
    challenge_completions := [{ id := 5, group_id := 3, user_id := 7,
                                challenge_id := 1, evidence_url := none,
                                points := 10, notes := none, approved := 0,
                                approved_by := none }]
    nextCompletionId := 6 }

/-- Concrete state for C3: a pending (never-approved) completion, captured
points 20, whose challenge's current catalog value has since become 30. -/
def dbC3 : DB :=
  { challenges := [{ id := 1, category_id := 1, points := 30,
                     status := "positive", is_active := true,
                     ripetibile := "y" }]
    challenge_categories := [{ id := 1, name := "Generale" }]
    users := [{ id := 7, total_points := 100 }]
    group_users := [{ group_id := 3, user_id := 7, points := 50,
                      role := "member" }]
    group_challenges := []
    challenge_completions := [{ id := 5, group_id := 3, user_id := 7,
                                challenge_id := 1, evidence_url := none,
                                points := 20, notes := none, approved := 0,
                                approved_by := none }]
    nextCompletionId := 6 }

/-- Concrete state for C7: an INACTIVE challenge (is_active = false) and no
prior completions. -/
def dbC7 : DB :=
  { challenges := [{ id := 1, category_id := 1, points := 10,
                     status := "positive", is_active := false,
                     ripetibile := "y" }]
    challenge_categories := [{ id := 1, name := "Generale" }]
    users := [{ id := 7, total_points := 0 }]
    group_users := [{ group_id := 3, user_id := 7, points := 0,
                      role := "member" }]
    group_challenges := []
    challenge_completions := []
    nextCompletionId := 1 }

/-- Concrete state for C8: group 1 currently has challenges 1 and 2
selected; challenge 3 exists in the catalog with its category. -/
def dbC8 : DB :=
  { challenges := [{ id := 1, category_id := 1, points := 10,
                     status := "positive", is_active := true,
                     ripetibile := "y" },
                   { id := 2, category_id := 1, points := 10,
                     status := "positive", is_active := true,
                     ripetibile := "y" },
                   { id := 3, category_id := 1, points := 10,
                     status := "positive", is_active := true,
                     ripetibile := "y" }]
    challenge_categories := [{ id := 1, name := "Generale" }]
    users := []
    group_users := []
    group_challenges := [{ group_id := 1, challenge_id := 1, is_active := true },
                         { group_id := 1, challenge_id := 2, is_active := true }]
    challenge_completions := []
    nextCompletionId := 1 }

theorem find?_map_pres {α : Type} (f : α → α) (p : α → Bool)
    (hp : ∀ a, p (f a) = p a) (l : List α) :
    (l.map f).find? p = (l.find? p).map f := by
  induction l with
  | nil => rfl
  | cons a t ih =>
    simp only [List.map_cons, List.find?]
    rw [hp a]
    cases h : p a <;> simp [ih]

/-- C9: DELETE /:completionId never touches the `group_users` table: the
per-group balance is left at its current value on every path of the
handler, including the success path that subtracts from the user's global
total. -/
theorem delete_preserves_group_users (f : DeleteFail) (db : DB) (cid : Int) :
    ((deleteCompletion f db cid).2).group_users = db.group_users := by
  rcases f with ⟨b1, b2, b3, b4⟩
  cases hc : db.challenge_completions.find? (fun cc => cc.id == cid) with
  | none => simp [deleteCompletion, hc]
  | some c =>
    cases hch : db.challenges.find? (fun ch => ch.id == c.challenge_id) with
    | none => simp [deleteCompletion, hc, hch]
    | some ch =>
      cases b1 <;> cases b2 <;> cases b3 <;> cases b4 <;>
        simp [deleteCompletion, hc, hch]

/-- C10: POST / rejects any request whose group, user or challenge id is
absent or falsy (null/0/empty string) with a 400 validation error, before
any store access, leaving the database unchanged. -/
theorem submit_missing_or_falsy_ids_rejected (f : SubmitFail) (db : DB)
    (g u c : ReqField) (e n : Option String)
    (h : (g.truthy && u.truthy && c.truthy) = false) :
    recordCompletion f db g u c e n = (⟨400, .errRequiredIds⟩, db) := by
  simp [recordCompletion, h]

/-- Witness for C10: the numeric id 0 is falsy, so a submission with
group_id 0 is rejected with 400 and no state change. -/
theorem submit_missing_or_falsy_ids_rejected_w :
    recordCompletion noSubmitFail ⟨[], [], [], [], [], [], 1⟩
      (ReqField.num 0) (ReqField.num 7) (ReqField.num 1) none none =
      (⟨400, .errRequiredIds⟩, ⟨[], [], [], [], [], [], 1⟩) :=
  submit_missing_or_falsy_ids_rejected noSubmitFail _ _ _ _ _ _ (by decide)

/-- C2 (code evaluated at the failing input): approving the completion of
a `status = "negative"` challenge of magnitude 10 INCREASES the
submitter's global total 100 → 110 and group balance 50 → 60; the sign is
never consulted, so the balance does not decrease as the claim requires. -/
theorem negative_challenge_approve_increases_balance :
    (approveCompletion noApproveFail dbC2 5 (ReqField.num 9)).1.status = 200 ∧
    userTotal (approveCompletion noApproveFail dbC2 5 (ReqField.num 9)).2 7 = 110 ∧
    groupPoints (approveCompletion noApproveFail dbC2 5 (ReqField.num 9)).2 3 7 = 60 := by
  decide

/-- C3 (code evaluated at the failing input): deleting a PENDING completion
(approved = 0, captured points 20, challenge's current points 30) succeeds
and drops the submitter's global total from 100 to 70: the handler checks
no approval state and subtracts the challenge's current value (30), not
the captured one (20) — the claim requires no balance change at all here. -/
theorem delete_pending_subtracts_current_points :
    (deleteCompletion noDeleteFail dbC3 5).1.status = 200 ∧
    userTotal (deleteCompletion noDeleteFail dbC3 5).2 7 = 70 := by
  decide

/-- Counterexample for C6: user 7 approving their own pending completion
(id 5 in `dbW`) is rejected with HTTP 400 (`Approver must be different
from the completer`), not with the 409 conflict status the claim asserts. -/
theorem self_approval_returns_400_not_409 :
    (approveCompletion noApproveFail dbW 5 (ReqField.num 7)).1.status = 400 ∧
    (approveCompletion noApproveFail dbW 5 (ReqField.num 7)).1.status ≠ 409 := by
  decide

/-- Counterexample for C7: submitting a completion of an inactive challenge
succeeds with 201 and inserts a completion row — the handler's challenge
query never consults `is_active`, so the claim's "fails for every inactive
challenge" is false. -/
theorem submit_inactive_challenge_accepted :
    (recordCompletion noSubmitFail dbC7 (ReqField.num 3) (ReqField.num 7)
      (ReqField.num 1) none none).1.status = 201 ∧
    ((recordCompletion noSubmitFail dbC7 (ReqField.num 3) (ReqField.num 7)
      (ReqField.num 1) none none).2).challenge_completions.length = 1 := by
  decide

/-- Counterexample for C8 (atomicity): the delete and the bulk insert are
two separate autocommitted statements with no wrapping transaction, so a
replace of group 1's set {1,2} by {3} whose insert statement fails returns
500 having already deleted the old associations: the group is left with an
empty selection, neither the old set nor the new one — the replacement is
not atomic. -/
theorem replace_group_challenges_not_atomic :
    (replaceGroupChallenges false true dbC8 1 (some [3])).1.status = 500 ∧
    ((replaceGroupChallenges false true dbC8 1 (some [3])).2).group_challenges = [] ∧
    dbC8.group_challenges ≠ [] := by
  decide

theorem applyApprove_find?_completion (db : DB) (c : Completion)
    (aid' : Int) (cid : Int)
    (hfind : db.challenge_completions.find? (fun cc => cc.id == cid) = some c) :
    (applyApprove db c aid').challenge_completions.find?
      (fun cc => cc.id == cid) =
      some { c with approved := 1, approved_by := some aid' } := by
  unfold applyApprove
  dsimp only
  rw [find?_map_pres _ _ ?hp, hfind]
  · simp
  case hp =>
    intro cc
    by_cases h : (cc.id == c.id) = true
    · simp [h]
    · simp [h]

theorem userTotal_applyApprove (db : DB) (c : Completion) (aid' : Int)
    (h : (db.users.find? (fun u => u.id == c.user_id)).isSome = true) :
    userTotal (applyApprove db c aid') c.user_id =
      userTotal db c.user_id + c.points := by
  unfold userTotal applyApprove
  dsimp only
  rw [find?_map_pres _ _ ?hp]
  · cases hu : db.users.find? (fun u => u.id == c.user_id) with
    | none => rw [hu] at h; simp at h
    | some u =>
      have hpu : u.id = c.user_id := by
        have h3 := List.find?_some hu
        simpa using h3
      simp [hpu]
  case hp =>
    intro u
    by_cases h2 : (u.id == c.user_id) = true
    · simp [h2]
    · simp [h2]

theorem groupPoints_applyApprove (db : DB) (c : Completion) (aid' : Int)
    (h : (db.group_users.find? (fun gu =>
      gu.user_id == c.user_id && gu.group_id == c.group_id)).isSome = true) :
    groupPoints (applyApprove db c aid') c.group_id c.user_id =
      groupPoints db c.group_id c.user_id + c.points := by
  unfold groupPoints applyApprove
  dsimp only
  rw [find?_map_pres _ _ ?hp]
  · cases hu : db.group_users.find? (fun gu =>
        gu.user_id == c.user_id && gu.group_id == c.group_id) with
    | none => rw [hu] at h; simp at h
    | some gu =>
      have hpu : gu.user_id = c.user_id ∧ gu.group_id = c.group_id := by
        have h3 := List.find?_some hu
        simpa using h3
      simp [hpu]
  case hp =>
    intro gu
    by_cases h2 : (gu.user_id == c.user_id && gu.group_id == c.group_id) = true
    · simp [h2]
    · simp [h2]

/-- C4: the approve transaction is atomic: for a pending completion with a
distinct truthy approver, either the call returns 200 and the state is
exactly the original with all three settlement effects applied
(`applyApprove`), or a statement failed and the transaction rolled back —
a 500 is returned and the state is completely unchanged.  No partial
application is observable for any combination of statement failures. -/
theorem approve_atomic (f : ApproveFail) (db : DB) (cid : Int)
    (aid : ReqField) (c : Completion)
    (ht : aid.truthy = true)
    (hfind : db.challenge_completions.find? (fun cc => cc.id == cid) = some c)
    (hpend : c.approved ≠ 1)
    (hself : aid ≠ ReqField.num c.user_id) :
    approveCompletion f db cid aid =
      (⟨200, .okApproved⟩, applyApprove db c aid.storeVal) ∨
    ((approveCompletion f db cid aid).1.status = 500 ∧
     (approveCompletion f db cid aid).2 = db) := by
  have happ : (c.approved == 1) = false := by simp [hpend]
  rcases f with ⟨b1, b2, b3, b4, b5⟩
  cases b1 <;> cases b2 <;> cases b3 <;> cases b4 <;> cases b5 <;>
    simp [approveCompletion, ht, hfind, happ, hself]

/-- Witness for C4 at a concrete state: approving the pending completion 5
of `dbW` by user 9 either fully settles or leaves `dbW` unchanged. -/
theorem approve_atomic_w :
    approveCompletion noApproveFail dbW 5 (ReqField.num 9) =
      (⟨200, .okApproved⟩,
       applyApprove dbW
         { id := 5, group_id := 3, user_id := 7, challenge_id := 1,
           evidence_url := none, points := 10, notes := none,
           approved := 0, approved_by := none } 9) ∨
    ((approveCompletion noApproveFail dbW 5 (ReqField.num 9)).1.status = 500 ∧
     (approveCompletion noApproveFail dbW 5 (ReqField.num 9)).2 = dbW) := by
  exact approve_atomic noApproveFail dbW 5 (ReqField.num 9) _
    (by decide) (by decide) (by decide) (by decide)

/-- C1: over a completion's lifetime points are credited exactly once.  A
first approval of a pending completion succeeds and raises the submitter's
global total and per-group balance by exactly one multiple of the captured
points; after that, every further Approve call on the same completion —
any approver, any runtime-failure pattern — is rejected with the 409
AlreadyApproved conflict and returns the state completely unchanged, so
neither balance moves again. -/
theorem approve_twice_rejected_balances_once (db : DB) (cid : Int)
    (aid : ReqField) (c : Completion)
    (ht : aid.truthy = true)
    (hfind : db.challenge_completions.find? (fun cc => cc.id == cid) = some c)
    (hpend : c.approved ≠ 1)
    (hself : aid ≠ ReqField.num c.user_id)
    (huser : (db.users.find? (fun u => u.id == c.user_id)).isSome = true)
    (hgu : (db.group_users.find? (fun gu =>
      gu.user_id == c.user_id && gu.group_id == c.group_id)).isSome = true) :
    (approveCompletion noApproveFail db cid aid).1.status = 200 ∧
    userTotal (approveCompletion noApproveFail db cid aid).2 c.user_id =
      userTotal db c.user_id + c.points ∧
    groupPoints (approveCompletion noApproveFail db cid aid).2
        c.group_id c.user_id =
      groupPoints db c.group_id c.user_id + c.points ∧
    ∀ (f : ApproveFail) (aid₂ : ReqField), aid₂.truthy = true →
      approveCompletion f (approveCompletion noApproveFail db cid aid).2
          cid aid₂ =
        (⟨409, .errAlreadyApproved⟩,
         (approveCompletion noApproveFail db cid aid).2) := by
  have happ : (c.approved == 1) = false := by simp [hpend]
  have heq : approveCompletion noApproveFail db cid aid =
      (⟨200, .okApproved⟩, applyApprove db c aid.storeVal) := by
    simp [approveCompletion, noApproveFail, ht, hfind, happ, hself]
  rw [heq]
  refine ⟨rfl, userTotal_applyApprove db c aid.storeVal huser,
    groupPoints_applyApprove db c aid.storeVal hgu, ?_⟩
  intro f aid₂ ht₂
  have hfind₁ := applyApprove_find?_completion db c aid.storeVal cid hfind
  simp [approveCompletion, ht₂, hfind₁]

/-- Witness for C1 at a concrete state: approving pending completion 5 of
`dbW` (user 7, 10 points) yields 200, totals 100 → 110 and 50 → 60, and a
second approval by user 2 is rejected with 409 leaving the state as it
was after the first approval. -/
theorem approve_twice_rejected_balances_once_w :
    (approveCompletion noApproveFail dbW 5 (ReqField.num 9)).1.status = 200 ∧
    userTotal (approveCompletion noApproveFail dbW 5 (ReqField.num 9)).2 7 =
      userTotal dbW 7 + 10 ∧
    groupPoints (approveCompletion noApproveFail dbW 5 (ReqField.num 9)).2 3 7 =
      groupPoints dbW 3 7 + 10 ∧
    approveCompletion noApproveFail
        (approveCompletion noApproveFail dbW 5 (ReqField.num 9)).2 5
        (ReqField.num 2) =
      (⟨409, .errAlreadyApproved⟩,
       (approveCompletion noApproveFail dbW 5 (ReqField.num 9)).2) := by
  have h := approve_twice_rejected_balances_once dbW 5 (ReqField.num 9)
    { id := 5, group_id := 3, user_id := 7, challenge_id := 1,
      evidence_url := none, points := 10, notes := none,
      approved := 0, approved_by := none }
    (by decide) (by decide) (by decide) (by decide) (by decide) (by decide)
  exact ⟨h.1, h.2.1, h.2.2.1, h.2.2.2 noApproveFail (ReqField.num 2) (by decide)⟩

theorem submit_dup_helper (f : SubmitFail) (db : DB) (g u cid : Int)
    (e n : Option String) (ch : Challenge)
    (hg : g ≠ 0) (hu : u ≠ 0) (hc : cid ≠ 0)
    (hch : db.challenges.find? (fun c => (ReqField.num cid).sqlEq c.id) = some ch)
    (hrep : ch.ripetibile ≠ "y")
    (hne : countTriple db g u cid ≠ 0) :
    recordCompletion f db (ReqField.num g) (ReqField.num u)
      (ReqField.num cid) e n = (⟨409, .errNotRepeatable⟩, db) := by
  have htruthy : ((ReqField.num g).truthy && (ReqField.num u).truthy &&
      (ReqField.num cid).truthy) = true := by
    simp [ReqField.truthy, hg, hu, hc]
  have hrep' : (ch.ripetibile == "y") = false := by simp [hrep]
  have hfil : (db.challenge_completions.filter (fun cc =>
      (ReqField.num g).sqlEq cc.group_id && (ReqField.num u).sqlEq cc.user_id &&
      (ReqField.num cid).sqlEq cc.challenge_id)).isEmpty = false := by
    cases hl : db.challenge_completions.filter (fun cc =>
        (ReqField.num g).sqlEq cc.group_id && (ReqField.num u).sqlEq cc.user_id &&
        (ReqField.num cid).sqlEq cc.challenge_id) with
    | nil => exact absurd (by simp [countTriple, hl]) hne
    | cons a t => rfl
  simp [recordCompletion, htruthy, hch, hrep', hfil]

theorem submit_count_helper (f : SubmitFail) (db : DB) (g u cid : Int)
    (e n : Option String) (ch : Challenge)
    (hg : g ≠ 0) (hu : u ≠ 0) (hc : cid ≠ 0)
    (hch : db.challenges.find? (fun c => (ReqField.num cid).sqlEq c.id) = some ch)
    (hrep : ch.ripetibile ≠ "y")
    (hle : countTriple db g u cid ≤ 1) :
    countTriple (recordCompletion f db (ReqField.num g) (ReqField.num u)
      (ReqField.num cid) e n).2 g u cid ≤ 1 := by
  by_cases hne : countTriple db g u cid = 0
  · have hfil : db.challenge_completions.filter (fun cc =>
        (ReqField.num g).sqlEq cc.group_id && (ReqField.num u).sqlEq cc.user_id &&
        (ReqField.num cid).sqlEq cc.challenge_id) = [] := by
      have h0 := hne
      simp only [countTriple] at h0
      exact List.length_eq_zero.mp h0
    have hfil' : db.challenge_completions.filter (fun cc =>
        g == cc.group_id && u == cc.user_id && cid == cc.challenge_id) = [] := by
      simpa [ReqField.sqlEq] using hfil
    have hch' : db.challenges.find? (fun c => cid == c.id) = some ch := by
      simpa [ReqField.sqlEq] using hch
    have htruthy : ((ReqField.num g).truthy && (ReqField.num u).truthy &&
        (ReqField.num cid).truthy) = true := by
      simp [ReqField.truthy, hg, hu, hc]
    have hnotex : ¬ ∃ x ∈ db.challenge_completions,
        g = x.group_id ∧ u = x.user_id ∧ cid = x.challenge_id := by
      intro hex
      obtain ⟨x, hx, hgx, hux, hcx⟩ := hex
      have hmem : x ∈ db.challenge_completions.filter (fun cc =>
          g == cc.group_id && u == cc.user_id && cid == cc.challenge_id) := by
        rw [List.mem_filter]
        exact ⟨hx, by simp [hgx, hux, hcx]⟩
      rw [hfil'] at hmem
      exact absurd hmem (List.not_mem_nil x)
    rcases f with ⟨fb, fi⟩
    cases fb <;> cases fi <;>
      simp [recordCompletion, countTriple, htruthy, hch', hrep, hnotex, hfil',
        List.filter_append, ReqField.sqlEq, ReqField.storeVal]
  · rw [submit_dup_helper f db g u cid e n ch hg hu hc hch hrep hne]
    exact hle

/-- C5: for a non-repeatable challenge with at least one prior completion
(pending or approved) by the same (group, user), a second Submit is
rejected with the 409 duplicate conflict and the state is completely
unchanged — no row inserted, the prior completion untouched; moreover the
at-most-one-completion-per-triple invariant is preserved by every Submit
of a non-repeatable challenge, whatever the prior state. -/
theorem submit_nonrepeatable_duplicate_rejected (f : SubmitFail) (db : DB)
    (g u cid : Int) (e n : Option String) (ch : Challenge)
    (hg : g ≠ 0) (hu : u ≠ 0) (hc : cid ≠ 0)
    (hch : db.challenges.find? (fun c => (ReqField.num cid).sqlEq c.id) = some ch)
    (hrep : ch.ripetibile ≠ "y")
    (hprior : countTriple db g u cid ≠ 0) :
    recordCompletion f db (ReqField.num g) (ReqField.num u)
      (ReqField.num cid) e n = (⟨409, .errNotRepeatable⟩, db) ∧
    ∀ (db₂ : DB) (ch₂ : Challenge),
      db₂.challenges.find? (fun c => (ReqField.num cid).sqlEq c.id) = some ch₂ →
      ch₂.ripetibile ≠ "y" →
      countTriple db₂ g u cid ≤ 1 →
      countTriple (recordCompletion f db₂ (ReqField.num g) (ReqField.num u)
        (ReqField.num cid) e n).2 g u cid ≤ 1 :=
  ⟨submit_dup_helper f db g u cid e n ch hg hu hc hch hrep hprior,
   fun db₂ ch₂ hch₂ hrep₂ hle₂ =>
     submit_count_helper f db₂ g u cid e n ch₂ hg hu hc hch₂ hrep₂ hle₂⟩

/-- Witness for C5 at a concrete state: user 7 already has completion 5 of
non-repeatable challenge 1 in group 3 in `dbW`; a second submission is
rejected with 409 and `dbW` is unchanged, and the triple keeps at most one
completion. -/
theorem submit_nonrepeatable_duplicate_rejected_w :
    recordCompletion noSubmitFail dbW (ReqField.num 3) (ReqField.num 7)
      (ReqField.num 1) none none = (⟨409, .errNotRepeatable⟩, dbW) ∧
    countTriple (recordCompletion noSubmitFail dbW (ReqField.num 3)
      (ReqField.num 7) (ReqField.num 1) none none).2 3 7 1 ≤ 1 := by
  have h := submit_nonrepeatable_duplicate_rejected noSubmitFail dbW 3 7 1
    none none
    { id := 1, category_id := 1, points := 10, status := "positive",
      is_active := true, ripetibile := "n" }
    (by decide) (by decide) (by decide) (by decide) (by decide) (by decide)
  exact ⟨h.1, h.2 dbW
    { id := 1, category_id := 1, points := 10, status := "positive",
      is_active := true, ripetibile := "n" }
    (by decide) (by decide) (by decide)⟩

/-- C6 (amended): an approver identical to the submitter of a pending
completion is always rejected — for every runtime-failure pattern — with
HTTP 400 (`Approver must be different from the completer`), and the state
is unchanged. -/
theorem self_approval_rejected_400 (f : ApproveFail) (db : DB) (cid : Int)
    (c : Completion)
    (ht : (ReqField.num c.user_id).truthy = true)
    (hfind : db.challenge_completions.find? (fun cc => cc.id == cid) = some c)
    (hpend : c.approved ≠ 1) :
    approveCompletion f db cid (ReqField.num c.user_id) =
      (⟨400, .errSelfApproval⟩, db) := by
  have happ : (c.approved == 1) = false := by simp [hpend]
  simp [approveCompletion, ht, hfind, happ]

/-- Witness for C6 (amended): submitter 7 self-approving completion 5 of
`dbW` gets 400 and no state change. -/
theorem self_approval_rejected_400_w :
    approveCompletion noApproveFail dbW 5 (ReqField.num 7) =
      (⟨400, .errSelfApproval⟩, dbW) := by
  exact self_approval_rejected_400 noApproveFail dbW 5
    { id := 5, group_id := 3, user_id := 7, challenge_id := 1,
      evidence_url := none, points := 10, notes := none,
      approved := 0, approved_by := none }
    (by decide) (by decide) (by decide)

/-- C7 (amended): Submit fails with the 404 ChallengeNotFound error, and
changes nothing, exactly when the referenced challenge is missing from the
catalog; the active flag is not consulted, so submissions of inactive
challenges are accepted (see the counterexample). -/
theorem submit_missing_challenge_404 (f : SubmitFail) (db : DB)
    (g u cid : ReqField) (e n : Option String)
    (ht : (g.truthy && u.truthy && cid.truthy) = true)
    (hch : db.challenges.find? (fun c => cid.sqlEq c.id) = none) :
    recordCompletion f db g u cid e n = (⟨404, .errChallengeNotFound⟩, db) := by
  simp [recordCompletion, ht, hch]

/-- Witness for C7 (amended): submitting against an empty catalog yields
404 with no state change. -/
theorem submit_missing_challenge_404_w :
    recordCompletion noSubmitFail ⟨[], [], [], [], [], [], 1⟩
      (ReqField.num 3) (ReqField.num 7) (ReqField.num 1) none none =
      (⟨404, .errChallengeNotFound⟩, ⟨[], [], [], [], [], [], 1⟩) := by
  exact submit_missing_challenge_404 noSubmitFail _ _ _ _ _ _
    (by decide) (by decide)

theorem filter_group_of_filter_not_group (l : List GroupChallenge) (g : Int) :
    (l.filter (fun gc => !(gc.group_id == g))).filter
      (fun gc => gc.group_id == g && gc.is_active) = [] := by
  induction l with
  | nil => rfl
  | cons a t ih =>
    by_cases h : a.group_id = g
    · simp [List.filter_cons, h, ih]
    · simp [List.filter_cons, h, ih]

theorem filterMap_inserted (db : DB) (g : Int) (ids : List Int)
    (h : ∀ cid ∈ ids, challengeListed db cid = true) :
    ((ids.map (fun cid =>
        ({ group_id := g, challenge_id := cid,
           is_active := true } : GroupChallenge))).filter
      (fun gc => gc.group_id == g && gc.is_active)).filterMap
      (fun gc =>
        match db.challenges.find? (fun c => c.id == gc.challenge_id) with
        | none => none
        | some c =>
          match db.challenge_categories.find?
              (fun cat => cat.id == c.category_id) with
          | none => none
          | some _ => some c.id) = ids := by
  induction ids with
  | nil => rfl
  | cons a t ih =>
    have ha : challengeListed db a = true := h a (List.mem_cons_self a t)
    have ht' : ∀ cid ∈ t, challengeListed db cid = true :=
      fun cid hc => h cid (List.mem_cons_of_mem a hc)
    unfold challengeListed at ha
    simp only [List.map_cons, List.filter_cons]
    cases hf : db.challenges.find? (fun c => c.id == a) with
    | none => rw [hf] at ha; simp at ha
    | some c =>
      rw [hf] at ha
      dsimp only at ha
      have hcid : c.id = a := by
        have h3 := List.find?_some hf
        simpa using h3
      cases hcat : db.challenge_categories.find?
          (fun cat => cat.id == c.category_id) with
      | none => rw [hcat] at ha; simp at ha
      | some cat =>
        simp [List.filterMap_cons, hf, hcat, hcid, ih ht']

/-- C8 (amended): replacing a group's challenge set deletes the existing
associations and inserts the new ones as two separate statements (not
atomically — see the counterexample); an empty or missing id list is
rejected with 400 and no state change, and after a successful replacement
the group's challenge listing returns exactly the new set (for ids that
resolve in the catalog with their categories), the previously selected
challenges no longer appearing. -/
theorem replace_group_challenges_spec (db : DB) (g : Int) (ids : List Int)
    (hne : ids ≠ [])
    (hlisted : ∀ cid ∈ ids, challengeListed db cid = true) :
    (replaceGroupChallenges false false db g (some ids)).1.status = 200 ∧
    getGroupChallenges (replaceGroupChallenges false false db g (some ids)).2 g
      = ids ∧
    replaceGroupChallenges false false db g (some []) =
      (⟨400, .errMustSelectChallenge⟩, db) ∧
    replaceGroupChallenges false false db g none =
      (⟨400, .errMustSelectChallenge⟩, db) := by
  have hie : ids.isEmpty = false := by
    cases ids with
    | nil => exact absurd rfl hne
    | cons a t => rfl
  refine ⟨?_, ?_, rfl, rfl⟩
  · simp [replaceGroupChallenges, hie]
  · simp only [replaceGroupChallenges, hie, Bool.false_eq_true, if_false,
      Bool.not_eq_true]
    unfold getGroupChallenges
    dsimp only
    rw [List.filter_append, filter_group_of_filter_not_group,
      List.nil_append]
    exact filterMap_inserted db g ids hlisted

/-- Witness for C8 (amended): replacing group 1's set {1,2} of `dbC8` by
{3} succeeds and the group's challenge listing afterwards is exactly [3];
the empty and missing list are rejected with 400 and no state change. -/
theorem replace_group_challenges_spec_w :
    (replaceGroupChallenges false false dbC8 1 (some [3])).1.status = 200 ∧
    getGroupChallenges (replaceGroupChallenges false false dbC8 1 (some [3])).2 1
      = [3] ∧
    replaceGroupChallenges false false dbC8 1 (some []) =
      (⟨400, .errMustSelectChallenge⟩, dbC8) ∧
    replaceGroupChallenges false false dbC8 1 none =
      (⟨400, .errMustSelectChallenge⟩, dbC8) := by
  exact replace_group_challenges_spec dbC8 1 [3] (by decide) (by decide)

end FantaVacanze
